import Mathlib

/-!
Shallow embedding of the source-fetch / configuration layer of the
`nostr-daily-news-mcp` server (TypeScript, `src/index.ts`, latest revision).

External capabilities are passed in as explicit oracle parameters:
* `querySync : List String → Filter → List NostrEvent` stands for
  `pool.querySync(relays, filter)` (the relay query transport);
* `parse : String → List RssItem` stands for `rssParser.parseURL(url).items`
  (the feed retrieval transport);
* `parseDate : String → Option String` stands for
  `new Date(s).toISOString()`, returning `none` exactly when the JS `Date`
  is invalid (in which case `toISOString` throws a `RangeError`);
* `isoOfUnix : Int → String` stands for
  `new Date(n * 1000).toISOString()` on an integer unix timestamp.

JavaScript objects with string index signatures (`CONFIG.relays`,
`CONFIG.rssFeeds.custom`, `CONFIG.rssFeeds.hackerNews`) are embedded as
insertion-ordered association lists with JS semantics: assignment to an
existing key updates in place, assignment to a fresh key appends, `delete`
removes, and bare lookup (`obj[k]`) yields `Option`-valued results that the
source tests with JS truthiness (`undefined` and `""` falsy; arrays and all
other objects truthy).  Persistence (`saveConfig`) is logged-and-swallowed
in the source, so handlers are embedded as pure state transitions returning
the new config, a flag recording whether `saveConfig` was invoked, and the
response text.
-/

namespace NostrDailyNews

/-- A nostr event as used by the source (`NostrEvent` from nostr-tools);
only the fields the code reads are modelled.  `kind` is `Option` because
the code guards with `event.kind !== undefined`. -/
structure NostrEvent where
  id : String
  pubkey : String
  created_at : Int
  kind : Option Int
  content : String
  deriving Repr, DecidableEq

/-- The nostr `Filter` shape built and consumed by the source.  Every field
the source may leave unset is `Option`-valued (`none` = absent key). -/
structure Filter where
  limit : Option Int
  kinds : Option (List Int)
  authors : Option (List String)
  since : Option Int
  untilTs : Option Int  -- the `until` key (Lean reserves the word `until`)
  deriving Repr, DecidableEq

/-- Source: `const DEFAULT_LIMIT = 10;` -/
def DEFAULT_LIMIT : Int := 10

/-- JS truthiness of a possibly-absent number (`undefined` and `0` falsy). -/
def jsFalsyNum : Option Int → Bool
  | none => true
  | some n => n == 0

/-- JS truthiness of a possibly-absent string (`undefined` and `""` falsy). -/
def jsTruthyStr : Option String → Bool
  | none => false
  | some s => s != ""

/-- Insertion-ordered association list standing for a JS object with a
string index signature. -/
abbrev JsObj (α : Type) : Type := List (String × α)

/-- Source: `obj[k]` (bare property read): value of the first (in a JS object,
only) binding of `k`, else `none` for `undefined`. -/
def objGet {α : Type} : JsObj α → String → Option α
  | [], _ => none
  | p :: rest, k => if p.1 == k then some p.2 else objGet rest k

/-- Source: `obj[k] = v`: updates the existing key in place (keeping its
insertion position), else appends the new key at the end. -/
def objSet {α : Type} : JsObj α → String → α → JsObj α
  | [], k, v => [(k, v)]
  | p :: rest, k, v =>
      if p.1 == k then (k, v) :: rest else p :: objSet rest k v

/-- Source: `delete obj[k]`. -/
def objDelete {α : Type} (o : JsObj α) (k : String) : JsObj α :=
  o.filter (fun p => p.1 != k)

/-- Source: `rssFeeds` section of the config (`RssFeedsConfig`). -/
structure RssFeedsConfig where
  stackerNews : String
  hackerNews : JsObj String
  custom : JsObj String

/-- The persisted configuration object (`Config`); `relays` is one JS
object holding `trending`, `news`, `custom` and any user-defined groups. -/
structure Config where
  relays : JsObj (List String)
  rssFeeds : RssFeedsConfig

/-- Source: `DEFAULT_CONFIG` from the source. -/
def DEFAULT_CONFIG : Config :=
  { relays := [("trending", ["wss://algo.utxo.one"]),
               ("news", ["wss://news.utxo.one"]),
               ("custom", [])],
    rssFeeds :=
      { stackerNews := "https://stacker.news/rss",
        hackerNews := [("newest", "https://hnrss.org/newest"),
                       ("frontpage", "https://hnrss.org/frontpage"),
                       ("bestComments", "https://hnrss.org/bestcomments"),
                       ("ask", "https://hnrss.org/ask"),
                       ("show", "https://hnrss.org/show")],
        custom := [] } }

/-- Source: `filter.limit = filter.limit || DEFAULT_LIMIT;` — the in-place default
applied by `fetchEvents` to the caller's filter object. -/
def effectiveFilter (filter : Filter) : Filter :=
  if jsFalsyNum filter.limit then { filter with limit := some DEFAULT_LIMIT }
  else filter

/-- The comparator `(a, b) => b.created_at - a.created_at` passed to
`Array.prototype.sort`: `a` precedes `b` when the comparator is `≤ 0`,
i.e. when `b.created_at ≤ a.created_at`. -/
def createdAtDesc (a b : NostrEvent) : Prop := b.created_at ≤ a.created_at

instance : DecidableRel createdAtDesc := fun a b =>
  inferInstanceAs (Decidable (b.created_at ≤ a.created_at))

/-- Source: `events.sort((a, b) => b.created_at - a.created_at)`: a sort consistent
with the comparator (ECMAScript leaves the algorithm unspecified; any sort
ordered by the comparator is a faithful model). -/
def sortByCreatedAtDesc (events : List NostrEvent) : List NostrEvent :=
  List.insertionSort createdAtDesc events

/-- Source: `fetchEvents(relays, filter)`: applies the limit default **in place**
on the caller's filter, queries, and sorts newest-first.  The second
component of the result is the caller's filter object as left after the
call (the in-place mutation made explicit). -/
def fetchEvents (querySync : List String → Filter → List NostrEvent)
    (relays : List String) (filter : Filter) : List NostrEvent × Filter :=
  let f := effectiveFilter filter
  (sortByCreatedAtDesc (querySync relays f), f)

/-- Source: `{ limit }` — the fresh filter object the wrappers build. -/
def filterOfLimit (limit : Int) : Filter :=
  { limit := some limit, kinds := none, authors := none,
    since := none, untilTs := none }

/-- Source: `fetchTrendingNotes(limit)` = `fetchEvents(CONFIG.relays.trending, { limit })`. -/
def fetchTrendingNotes (querySync : List String → Filter → List NostrEvent)
    (cfg : Config) (limit : Int) : List NostrEvent :=
  (fetchEvents querySync ((objGet cfg.relays "trending").getD []) (filterOfLimit limit)).1

/-- Source: `fetchNewsNotes(limit)` = `fetchEvents(CONFIG.relays.news, { limit })`. -/
def fetchNewsNotes (querySync : List String → Filter → List NostrEvent)
    (cfg : Config) (limit : Int) : List NostrEvent :=
  (fetchEvents querySync ((objGet cfg.relays "news").getD []) (filterOfLimit limit)).1

/-- Source: `fetchCustomRelayNotes(relayName, limit)`: dispatches to the two
built-in fetchers, else looks the group up in `CONFIG.relays` (an array
value is always truthy in JS, so the test is key membership), else throws
`` `Relay group '${relayName}' not found in configuration` ``. -/
def fetchCustomRelayNotes (querySync : List String → Filter → List NostrEvent)
    (cfg : Config) (relayName : String) (limit : Int) :
    Except String (List NostrEvent) :=
  if relayName == "trending" then
    Except.ok (fetchTrendingNotes querySync cfg limit)
  else if relayName == "news" then
    Except.ok (fetchNewsNotes querySync cfg limit)
  else
    match objGet cfg.relays relayName with
    | some urls => Except.ok ((fetchEvents querySync urls (filterOfLimit limit)).1)
    | none =>
        Except.error ("Relay group '" ++ relayName ++ "' not found in configuration")

/-- A primitive JS value, as may appear inside an RSS category entry. -/
inductive JsPrim where
  | str (s : String)
  | num (n : Int)
  | bool (b : Bool)
  | null
  deriving Repr, DecidableEq

/-- A JS value in a `categories` array: a primitive, or a (flat) tagged
object such as rss-parser's `{ _: "text", $: {...} }` shape. -/
inductive JsValue where
  | prim (p : JsPrim)
  | obj (fields : JsObj JsPrim)
  deriving Repr, DecidableEq

/-- JS `String(v)` on a primitive. -/
def jsPrimString : JsPrim → String
  | JsPrim.str s => s
  | JsPrim.num n => toString n
  | JsPrim.bool b => if b then "true" else "false"
  | JsPrim.null => "null"

/-- Source: `JSON.stringify` on a primitive. -/
def jsonStringifyPrim : JsPrim → String
  | JsPrim.str s => "\"" ++ s ++ "\""
  | JsPrim.num n => toString n
  | JsPrim.bool b => if b then "true" else "false"
  | JsPrim.null => "null"

/-- Source: `JSON.stringify` on a flat tagged object. -/
def jsonStringify : JsValue → String
  | JsValue.prim p => jsonStringifyPrim p
  | JsValue.obj fields =>
      "\x7b" ++
        String.intercalate ","
          (fields.map (fun p => "\"" ++ p.1 ++ "\":" ++ jsonStringifyPrim p.2)) ++
      "\x7d"

/-- An RSS item (`Parser.Item`): all fields the code reads, each optional
(absent = `none`).  `dcCreator` / `dcCreatorColon` stand for the dynamic
reads `itemAny.dcCreator` and `itemAny['dc:creator']`. -/
structure RssItem where
  pubDate : Option String
  isoDate : Option String
  title : Option String
  creator : Option String
  dcCreator : Option String
  dcCreatorColon : Option String
  contentSnippet : Option String
  content : Option String
  link : Option String
  categories : Option (List JsValue)
  deriving Repr, DecidableEq

/-- The canonical display record (`FormattedItem`). -/
structure FormattedItem where
  date : String
  title : Option String
  author : String
  content : String
  link : Option String
  metadata : Option (JsObj String)
  deriving Repr, DecidableEq

/-- Source: `s₁ || s₂` on a possibly-absent string: the fallback when falsy. -/
def jsStrOr (o : Option String) (fallback : String) : String :=
  if jsTruthyStr o then o.getD "" else fallback

/-- Source: `formatDate` applied to a date **string**: `new Date(s).toISOString()`.
`parseDate` is the JS date-parsing capability; `none` means the date is
invalid, in which case `toISOString` throws (`Except.error`). -/
def formatDateStr (parseDate : String → Option String) (s : String) :
    Except Unit String :=
  match parseDate s with
  | some iso => Except.ok iso
  | none => Except.error ()

/-- Source: `getItemDate(item)`: `pubDate` if truthy, else `isoDate` if truthy,
else the sentinel; may throw via `formatDate` on an invalid date. -/
def getItemDate (parseDate : String → Option String) (item : RssItem) :
    Except Unit String :=
  if jsTruthyStr item.pubDate then formatDateStr parseDate (item.pubDate.getD "")
  else if jsTruthyStr item.isoDate then formatDateStr parseDate (item.isoDate.getD "")
  else Except.ok "Unknown date"

/-- One entry of the `categories.map(...)` body in `processCategories`:
a string is used directly; an object (non-null) yields its `_` field when
that is a string, else its `JSON.stringify`; anything else is `String(cat)`
(note JS `typeof null === 'object'` but the code also tests `cat !== null`,
so `null` reaches `String(cat) = "null"`). -/
def categoryToString : JsValue → String
  | JsValue.prim (JsPrim.str s) => s
  | JsValue.obj fields =>
      match objGet fields "_" with
      | some (JsPrim.str v) => v
      | _ => jsonStringify (JsValue.obj fields)
  | JsValue.prim p => jsPrimString p

/-- Source: `processCategories(categories)`: `undefined` for a missing or empty
array, else the comma-joined entry strings.  (The source's `try/catch`
fallbacks — `return undefined` and `'Unknown category'` — guard calls that
cannot throw in this model.) -/
def processCategories (categories : Option (List JsValue)) : Option String :=
  match categories with
  | none => none
  | some [] => none
  | some cats => some (String.intercalate ", " (cats.map categoryToString))

/-- Source: `getItemMetadata(item)`: `categories ? { categories } : undefined` —
note the *string* truthiness test, so a categories string that joins to
`""` also yields `undefined`. -/
def getItemMetadata (item : RssItem) : Option (JsObj String) :=
  match processCategories item.categories with
  | some c => if c != "" then some [("categories", c)] else none
  | none => none

/-- Source: `extractAuthor(item)`: creator field, then the two `dc:` spellings,
then the first category's `_` text when it is a string, else `"Unknown"`.
(The surrounding `try/catch → 'Unknown'` guards calls that cannot throw in
this model.) -/
def extractAuthor (item : RssItem) : String :=
  if jsTruthyStr item.creator then item.creator.getD ""
  else if jsTruthyStr item.dcCreator then item.dcCreator.getD ""
  else if jsTruthyStr item.dcCreatorColon then item.dcCreatorColon.getD ""
  else
    match item.categories with
    | some (JsValue.obj fields :: _) =>
        match objGet fields "_" with
        | some (JsPrim.str v) => v
        | _ => "Unknown"
    | _ => "Unknown"

/-- The `try` block of `rssItemToFormattedItem`: only `getItemDate` can
throw (via `toISOString` on an invalid date); the record literal evaluates
it first. -/
def rssItemBody (parseDate : String → Option String) (item : RssItem) :
    Except Unit FormattedItem :=
  match getItemDate parseDate item with
  | Except.error e => Except.error e
  | Except.ok d =>
      Except.ok
        { date := d,
          title := some (jsStrOr item.title ""),
          author := extractAuthor item,
          content := jsStrOr item.contentSnippet (jsStrOr item.content ""),
          link := some (jsStrOr item.link ""),
          metadata := getItemMetadata item }

/-- Source: `rssItemToFormattedItem(item)`: the `try` body, with the `catch`
branch producing the safe fallback record. -/
def rssItemToFormattedItem (parseDate : String → Option String)
    (item : RssItem) : FormattedItem :=
  match rssItemBody parseDate item with
  | Except.ok r => r
  | Except.error _ =>
      { date := "Unknown date",
        title := some (jsStrOr item.title "Unknown title"),
        author := "Unknown",
        content := "Error processing content",
        link := some (jsStrOr item.link ""),
        metadata := none }

/-- Source: `nostrEventToFormattedItem(event)`. -/
def nostrEventToFormattedItem (isoOfUnix : Int → String) (e : NostrEvent) :
    FormattedItem :=
  { date := isoOfUnix e.created_at,
    title := none,
    author := if e.pubkey != "" then e.pubkey.take 8 ++ "..." else "",
    content := e.content,
    link := none,
    metadata :=
      match e.kind with
      | some k => some [("kind", toString k)]
      | none => none }

/-- Source: `key.charAt(0).toUpperCase() + key.slice(1)`. -/
def capitalizeFirst (s : String) : String :=
  match s.data with
  | [] => ""
  | c :: cs => String.mk (c.toUpper :: cs)

/-- Source: `formatItem(item)` (latest revision: `parts` joined with `"\n"`). -/
def formatItem (item : FormattedItem) : String :=
  let firstLine :=
    "[" ++ item.date ++ "]" ++
      (if jsTruthyStr item.title then " " ++ item.title.getD "" else "")
  let parts := [firstLine]
  let parts := parts ++ (if item.author != "" then ["Author: " ++ item.author] else [])
  let parts := parts ++
    (match item.metadata with
     | some md =>
         (md.filter (fun p => p.2 != "")).map
           (fun p => capitalizeFirst p.1 ++ ": " ++ p.2)
     | none => [])
  let parts := parts ++ (if item.content != "" then [item.content] else [])
  let parts := parts ++ (if jsTruthyStr item.link then [item.link.getD ""] else [])
  String.intercalate "\n" parts

/-- Source: `formatNostrEvent(event)`. -/
def formatNostrEvent (isoOfUnix : Int → String) (e : NostrEvent) : String :=
  formatItem (nostrEventToFormattedItem isoOfUnix e)

/-- Source: `formatRssItem(item)`. -/
def formatRssItem (parseDate : String → Option String) (item : RssItem) : String :=
  formatItem (rssItemToFormattedItem parseDate item)

/-- Source: `fetchRssFeed(feedUrl, limit)` = `feed.items.slice(0, limit)`, on the
entry list the retrieval capability produced for the URL.  `limit : Nat`
models a non-negative integer limit, for which `slice(0, limit)` is
exactly `take limit`. -/
def fetchRssFeed (feedItems : List RssItem) (limit : Nat) : List RssItem :=
  feedItems.take limit

/-- Source: `fetchStackerNews(limit)`. -/
def fetchStackerNews (parse : String → List RssItem) (cfg : Config)
    (limit : Nat) : List RssItem :=
  fetchRssFeed (parse cfg.rssFeeds.stackerNews) limit

/-- Source: `fetchHackerNews(type, limit)` (latest revision): throws when the
looked-up URL is falsy (missing or empty). -/
def fetchHackerNews (parse : String → List RssItem) (cfg : Config)
    (feedType : String) (limit : Nat) : Except String (List RssItem) :=
  if jsTruthyStr (objGet cfg.rssFeeds.hackerNews feedType) then
    Except.ok (fetchRssFeed (parse ((objGet cfg.rssFeeds.hackerNews feedType).getD "")) limit)
  else
    Except.error ("Hacker News feed type '" ++ feedType ++ "' not found in configuration")

/-- Source: `fetchCustomRssFeed(feedName, limit)`: built-in names first, then the
dotted hackerNews form (subtype = `feedName.split('.')[1]`), then the
custom mapping — tested with `if (customFeeds[feedName])`, i.e. JS
truthiness of the stored URL, not key membership. -/
def fetchCustomRssFeed (parse : String → List RssItem) (cfg : Config)
    (feedName : String) (limit : Nat) : Except String (List RssItem) :=
  if feedName == "stackerNews" then
    Except.ok (fetchStackerNews parse cfg limit)
  else if feedName.startsWith "hackerNews." then
    fetchHackerNews parse cfg ((feedName.splitOn ".").getD 1 "") limit
  else if jsTruthyStr (objGet cfg.rssFeeds.custom feedName) then
    Except.ok (fetchRssFeed (parse ((objGet cfg.rssFeeds.custom feedName).getD "")) limit)
  else
    Except.error ("RSS feed '" ++ feedName ++ "' not found in configuration")

/-- Source: `handleToolError(error, errorPrefix)` → the text payload
`` `${errorPrefix}: ${error.message}` ``. -/
def handleToolError (errMessage : String) (errLabel : String) : String :=
  errLabel ++ ": " ++ errMessage

/-- The `fetch-relay-group` tool: `createToolHandler` around
`fetchCustomRelayNotes`, with its not-found message and error label. -/
def fetchRelayGroupTool (querySync : List String → Filter → List NostrEvent)
    (isoOfUnix : Int → String) (cfg : Config) (relayGroup : String)
    (limit : Int) : String :=
  match fetchCustomRelayNotes querySync cfg relayGroup limit with
  | Except.ok events =>
      if events.length == 0 then "No events found for the specified relay group."
      else String.intercalate "\n\n" (events.map (formatNostrEvent isoOfUnix))
  | Except.error msg => handleToolError msg "Error fetching events from relay group"

/-- The filter built by the `fetch-custom-events` handler: each `if (x)`
guard is JS truthiness, so `since`/`until` equal to `0` are dropped, and
absent (`undefined`) `kinds`/`authors` are dropped, while a present array
(even empty) is truthy and kept. -/
def buildCustomEventsFilter (limit : Int) (kinds : Option (List Int))
    (authors : Option (List String)) (since : Option Int)
    (untilTs : Option Int) : Filter :=
  { limit := some limit,
    kinds := kinds,
    authors := authors,
    since := if jsFalsyNum since then none else since,
    untilTs := if jsFalsyNum untilTs then none else untilTs }

/-- The `add-relay-group` handler: `"custom"` appends to the existing
custom array; any other name is created or replaced wholesale; then
`saveConfig`.  Result: new config, whether `saveConfig` ran, response text. -/
def addRelayGroup (cfg : Config) (name : String) (relays : List String) :
    Config × Bool × String :=
  let relaysObj :=
    if name == "custom" then
      objSet cfg.relays "custom" (((objGet cfg.relays "custom").getD []) ++ relays)
    else
      objSet cfg.relays name relays
  ({ cfg with relays := relaysObj }, true,
   "Relay group '" ++ name ++ "' has been added/updated with " ++
     toString relays.length ++ " relays.")

/-- The `remove-relay-group` handler: built-in names are refused with no
mutation and no save; `"custom"` is cleared (not deleted); an existing
other name is deleted; an absent name reports not-found with no save. -/
def removeRelayGroup (cfg : Config) (name : String) : Config × Bool × String :=
  if name == "trending" || name == "news" then
    (cfg, false,
     "Cannot remove built-in relay group '" ++ name ++ "'. You can update it instead.")
  else if name == "custom" then
    ({ cfg with relays := objSet cfg.relays "custom" [] }, true,
     "Relay group '" ++ name ++ "' has been removed.")
  else if (objGet cfg.relays name).isSome then
    ({ cfg with relays := objDelete cfg.relays name }, true,
     "Relay group '" ++ name ++ "' has been removed.")
  else
    (cfg, false, "Relay group '" ++ name ++ "' not found.")

/-- The `remove-rss-feed` handler: built-in names refused; otherwise the
existence test is `if (customFeeds[name])` — JS truthiness of the stored
URL — so only a truthy (present and non-empty) URL is deleted and saved. -/
def removeRssFeed (cfg : Config) (name : String) : Config × Bool × String :=
  if name == "stackerNews" || name.startsWith "hackerNews." then
    (cfg, false,
     "Cannot remove built-in RSS feed '" ++ name ++ "'. You can update it instead.")
  else if jsTruthyStr (objGet cfg.rssFeeds.custom name) then
    ({ cfg with rssFeeds := { cfg.rssFeeds with custom := objDelete cfg.rssFeeds.custom name } },
     true, "RSS feed '" ++ name ++ "' has been removed.")
  else
    (cfg, false, "RSS feed '" ++ name ++ "' not found.")

/-- Concrete events used to instantiate witnesses: two distinct timestamps. -/
def evOld : NostrEvent :=
  { id := "a", pubkey := "pkaaaaaaaa", created_at := 1, kind := some 1, content := "older" }

/-- Concrete events used to instantiate witnesses: the newer one. -/
def evNew : NostrEvent :=
  { id := "b", pubkey := "pkbbbbbbbb", created_at := 2, kind := some 1, content := "newer" }

/-- A configuration whose custom feed mapping binds the name `"empty"` to
the empty-string URL (a present key with a falsy value). -/
def cfgWithEmptyFeed : Config :=
  { relays := DEFAULT_CONFIG.relays,
    rssFeeds :=
      { stackerNews := "https://stacker.news/rss",
        hackerNews := DEFAULT_CONFIG.rssFeeds.hackerNews,
        custom := [("empty", "")] } }

/- ------------------------------------------------------------------ -/
/- Helper lemmas (shared by several claims).                           -/
/- ------------------------------------------------------------------ -/

theorem effectiveFilter_other_fields (f : Filter) :
    (effectiveFilter f).kinds = f.kinds ∧ (effectiveFilter f).authors = f.authors
    ∧ (effectiveFilter f).since = f.since
    ∧ (effectiveFilter f).untilTs = f.untilTs := by
  unfold effectiveFilter
  split <;> simp

instance : IsTotal NostrEvent createdAtDesc :=
  ⟨fun a b => (le_total b.created_at a.created_at).imp id id⟩

instance : IsTrans NostrEvent createdAtDesc :=
  ⟨fun _ _ _ hab hbc => le_trans hbc hab⟩

theorem pairwise_sortByCreatedAtDesc (l : List NostrEvent) :
    List.Pairwise createdAtDesc (sortByCreatedAtDesc l) :=
  List.sorted_insertionSort createdAtDesc l

theorem length_sortByCreatedAtDesc (l : List NostrEvent) :
    (sortByCreatedAtDesc l).length = l.length :=
  List.length_insertionSort createdAtDesc l

theorem objGet_objSet_self {α : Type} (o : JsObj α) (k : String) (v : α) :
    objGet (objSet o k v) k = some v := by
  induction o with
  | nil => simp [objGet, objSet]
  | cons p rest ih =>
      cases hpk : p.1 == k with
      | true => simp [objSet, objGet, hpk]
      | false => simp [objSet, objGet, hpk, ih]

theorem fetchEvents_fst (querySync : List String → Filter → List NostrEvent)
    (relays : List String) (filter : Filter) :
    (fetchEvents querySync relays filter).1 =
      sortByCreatedAtDesc (querySync relays (effectiveFilter filter)) := rfl

theorem fetchEvents_snd (querySync : List String → Filter → List NostrEvent)
    (relays : List String) (filter : Filter) :
    (fetchEvents querySync relays filter).2 = effectiveFilter filter := rfl

theorem fetchCustomRelayNotes_ok_sorted
    (querySync : List String → Filter → List NostrEvent) (cfg : Config)
    (relayName : String) (limit : Int) (events : List NostrEvent)
    (h : fetchCustomRelayNotes querySync cfg relayName limit = Except.ok events) :
    List.Pairwise createdAtDesc events := by
  unfold fetchCustomRelayNotes at h
  split at h
  · injection h with h
    subst h
    exact pairwise_sortByCreatedAtDesc _
  · split at h
    · injection h with h
      subst h
      exact pairwise_sortByCreatedAtDesc _
    · split at h
      · injection h with h
        subst h
        exact pairwise_sortByCreatedAtDesc _
      · exact absurd h (by simp)

/- ------------------------------------------------------------------ -/
/- Claim theorems.                                                     -/
/- ------------------------------------------------------------------ -/

/-- C1: every relay fetch — `fetchEvents`, and hence `fetchTrendingNotes`,
`fetchNewsNotes`, and any successful `fetchCustomRelayNotes` — returns a
sequence sorted by `created_at` non-increasing (newest first); ties may
appear in either order. -/
theorem c1_relay_fetch_sorted_desc
    (querySync : List String → Filter → List NostrEvent) (cfg : Config)
    (relays : List String) (filter : Filter) (relayName : String)
    (limit : Int) (events : List NostrEvent)
    (h : fetchCustomRelayNotes querySync cfg relayName limit = Except.ok events) :
    List.Pairwise createdAtDesc (fetchEvents querySync relays filter).1
    ∧ List.Pairwise createdAtDesc (fetchTrendingNotes querySync cfg limit)
    ∧ List.Pairwise createdAtDesc (fetchNewsNotes querySync cfg limit)
    ∧ List.Pairwise createdAtDesc events :=
  ⟨pairwise_sortByCreatedAtDesc _, pairwise_sortByCreatedAtDesc _,
   pairwise_sortByCreatedAtDesc _,
   fetchCustomRelayNotes_ok_sorted querySync cfg relayName limit events h⟩

/-- Witness for C1 at a concrete query result (events arriving oldest
first come back newest first). -/
theorem c1_relay_fetch_sorted_desc_witness :
    List.Pairwise createdAtDesc
      (fetchEvents (fun _ _ => [evOld, evNew]) ["wss://r.example"] (filterOfLimit 2)).1
    ∧ List.Pairwise createdAtDesc
        (fetchTrendingNotes (fun _ _ => [evOld, evNew]) DEFAULT_CONFIG 2)
    ∧ List.Pairwise createdAtDesc
        (fetchNewsNotes (fun _ _ => [evOld, evNew]) DEFAULT_CONFIG 2)
    ∧ List.Pairwise createdAtDesc [evNew, evOld] :=
  c1_relay_fetch_sorted_desc (fun _ _ => [evOld, evNew]) DEFAULT_CONFIG
    ["wss://r.example"] (filterOfLimit 2) "trending" 2 [evNew, evOld] rfl

/-- C2: the feed fetch returns exactly `min N L` entries, as a prefix of
the feed document's entry list (original order, no re-sorting); the named
wrappers (`fetchStackerNews`, `fetchHackerNews`, `fetchCustomRssFeed`)
delegate to `fetchRssFeed` on the resolved URL's entries. -/
theorem c2_feed_fetch_min_and_order (feedItems : List RssItem) (limit : Nat) :
    (fetchRssFeed feedItems limit).length = min feedItems.length limit
    ∧ feedItems = fetchRssFeed feedItems limit ++ feedItems.drop limit := by
  constructor
  · simpa [fetchRssFeed] using Nat.min_comm limit feedItems.length
  · exact (List.take_append_drop limit feedItems).symm

/-- C4: removing the built-in relay groups `"trending"` and `"news"` is
always refused (the source's permission-denied response), with the config
unchanged and `saveConfig` not invoked. -/
theorem c4_remove_builtin_relay_groups (cfg : Config) :
    removeRelayGroup cfg "trending" =
      (cfg, false,
       "Cannot remove built-in relay group 'trending'. You can update it instead.")
    ∧ removeRelayGroup cfg "news" =
      (cfg, false,
       "Cannot remove built-in relay group 'news'. You can update it instead.") :=
  ⟨rfl, rfl⟩

/-- C3 counterexample: the claim "the caller never receives more than
`limit` items" fails for relay fetches — `fetchEvents` never truncates, so
with an (explicit, truthy) limit of `1` and a query capability yielding
two events, the caller receives two events. -/
theorem c3_counterexample :
    ¬ ((fetchEvents (fun _ _ => [evOld, evNew]) ["wss://r.example"]
          (filterOfLimit 1)).1.length ≤ 1) := by
  decide

/-- C3 as amended: when the supplied limit is absent or falsy the
effective limit is the constant 10; feed fetches return at most `limit`
items; but a relay fetch returns exactly as many events as the query
capability yields for the effective filter (no truncation in this layer),
which may exceed the limit. -/
theorem c3_amended_default_limit :
    (∀ filter : Filter, jsFalsyNum filter.limit = true →
        (effectiveFilter filter).limit = some DEFAULT_LIMIT)
    ∧ (∀ (feedItems : List RssItem) (limit : Nat),
        (fetchRssFeed feedItems limit).length ≤ limit)
    ∧ (∀ (querySync : List String → Filter → List NostrEvent)
        (relays : List String) (filter : Filter),
        (fetchEvents querySync relays filter).1.length =
          (querySync relays (effectiveFilter filter)).length) := by
  refine ⟨fun filter h => ?_, fun feedItems limit => ?_, fun q r f => ?_⟩
  · simp [effectiveFilter, h]
  · exact List.length_take_le limit feedItems
  · exact length_sortByCreatedAtDesc _

/-- Witness for the amended C3 at concrete inputs. -/
theorem c3_amended_default_limit_witness :
    (effectiveFilter (filterOfLimit 0)).limit = some DEFAULT_LIMIT
    ∧ (fetchRssFeed [] 3).length ≤ 3
    ∧ (fetchEvents (fun _ _ => [evOld, evNew]) ["wss://r.example"]
        (filterOfLimit 1)).1.length =
      ((fun (_ : List String) (_ : Filter) => [evOld, evNew]) ["wss://r.example"]
        (effectiveFilter (filterOfLimit 1))).length :=
  ⟨c3_amended_default_limit.1 (filterOfLimit 0) rfl,
   c3_amended_default_limit.2.1 [] 3,
   c3_amended_default_limit.2.2 (fun _ _ => [evOld, evNew]) ["wss://r.example"]
     (filterOfLimit 1)⟩

/-- C5: adding to the relay group `"custom"` appends to the existing list
(so two successive single-URL adds starting from an empty custom group
yield `[u1, u2]`), while adding under any other name creates or replaces
the group wholesale (two successive adds yield the second list). -/
theorem c5_add_relay_group_append_vs_replace (cfg : Config)
    (h : objGet cfg.relays "custom" = some [])
    (name : String) (hn : name ≠ "custom") (u1 u2 : String)
    (us1 us2 : List String) :
    objGet ((addRelayGroup (addRelayGroup cfg "custom" [u1]).1 "custom" [u2]).1).relays
        "custom" = some [u1, u2]
    ∧ objGet ((addRelayGroup (addRelayGroup cfg name us1).1 name us2).1).relays
        name = some us2 := by
  have hb : (name == "custom") = false := by
    simp [hn]
  constructor
  · simp [addRelayGroup, h, objGet_objSet_self]
  · simp [addRelayGroup, hb, objGet_objSet_self]

/-- Witness for C5 from the default configuration (whose custom group is
empty) and the fresh group name `"other"`. -/
theorem c5_add_relay_group_append_vs_replace_witness :
    objGet ((addRelayGroup (addRelayGroup DEFAULT_CONFIG "custom" ["wss://u1"]).1
        "custom" ["wss://u2"]).1).relays "custom" = some ["wss://u1", "wss://u2"]
    ∧ objGet ((addRelayGroup (addRelayGroup DEFAULT_CONFIG "other" ["wss://a"]).1
        "other" ["wss://b"]).1).relays "other" = some ["wss://b"] :=
  c5_add_relay_group_append_vs_replace DEFAULT_CONFIG rfl "other" (by decide)
    "wss://u1" "wss://u2" ["wss://a"] ["wss://b"]

/-- C6: normalization of a feed entry is total over every item shape —
including category entries that are neither strings nor tagged objects —
and always produces either the fully extracted record or, exactly when
date conversion fails (the only throwing step), the safe fallback record
with `"Unknown date"`, the `"Unknown title"` title fallback, `"Unknown"`
author and the error placeholder content; one malformed item can thus
never abort a batch. -/
theorem c6_rss_normalization_total_and_safe
    (parseDate : String → Option String) (item : RssItem) :
    (∃ d, getItemDate parseDate item = Except.ok d
      ∧ rssItemToFormattedItem parseDate item =
          { date := d,
            title := some (jsStrOr item.title ""),
            author := extractAuthor item,
            content := jsStrOr item.contentSnippet (jsStrOr item.content ""),
            link := some (jsStrOr item.link ""),
            metadata := getItemMetadata item })
    ∨ (getItemDate parseDate item = Except.error ()
      ∧ rssItemToFormattedItem parseDate item =
          { date := "Unknown date",
            title := some (jsStrOr item.title "Unknown title"),
            author := "Unknown",
            content := "Error processing content",
            link := some (jsStrOr item.link ""),
            metadata := none }) := by
  cases h : getItemDate parseDate item with
  | ok d =>
      exact Or.inl ⟨d, rfl, by simp [rssItemToFormattedItem, rssItemBody, h]⟩
  | error e =>
      cases e
      exact Or.inr ⟨rfl, by simp [rssItemToFormattedItem, rssItemBody, h]⟩

/-- C7: fetching from a relay-group name that is neither built-in nor
present in `CONFIG.relays` yields, through the tool's error handler, the
prefixed text `Error fetching events from relay group: Relay group
'<name>' not found in configuration`. -/
theorem c7_relay_group_not_found_error_text
    (querySync : List String → Filter → List NostrEvent)
    (isoOfUnix : Int → String) (cfg : Config) (name : String) (limit : Int)
    (h1 : name ≠ "trending") (h2 : name ≠ "news")
    (h3 : objGet cfg.relays name = none) :
    fetchRelayGroupTool querySync isoOfUnix cfg name limit =
      "Error fetching events from relay group: Relay group '" ++ name ++
        "' not found in configuration" := by
  have hb1 : (name == "trending") = false := by simp [h1]
  have hb2 : (name == "news") = false := by simp [h2]
  simp only [fetchRelayGroupTool, fetchCustomRelayNotes, hb1, hb2, h3,
    Bool.false_eq_true, if_false, handleToolError]
  rfl

/-- Witness for C7: the claim's scenario `fetchRelayGroup("doesnotexist", 5)`
on the default configuration produces exactly the claimed text. -/
theorem c7_relay_group_not_found_error_text_witness :
    fetchRelayGroupTool (fun _ _ => []) (fun _ => "") DEFAULT_CONFIG
        "doesnotexist" 5 =
      "Error fetching events from relay group: Relay group 'doesnotexist' not found in configuration" :=
  c7_relay_group_not_found_error_text (fun _ _ => []) (fun _ => "")
    DEFAULT_CONFIG "doesnotexist" 5 (by decide) (by decide) rfl

/-- C8: in the `fetch-custom-events` handler, `since`/`until` equal to `0`
are dropped from the filter handed to the query capability (a truthiness
check, not a presence check), so a bound of unix time `0` cannot be set,
while a non-zero bound is kept; absent (`undefined`, the only falsy value
for an array parameter) `kinds`/`authors` are likewise dropped. -/
theorem c8_custom_events_zero_bounds_dropped
    (querySync : List String → Filter → List NostrEvent)
    (relays : List String) (limit : Int) (kinds : Option (List Int))
    (authors : Option (List String)) (s : Int) (hs : s ≠ 0) :
    ((fetchEvents querySync relays
        (buildCustomEventsFilter limit kinds authors (some 0) (some 0))).2).since = none
    ∧ ((fetchEvents querySync relays
        (buildCustomEventsFilter limit kinds authors (some 0) (some 0))).2).untilTs = none
    ∧ (buildCustomEventsFilter limit none none (some 0) (some 0)).kinds = none
    ∧ (buildCustomEventsFilter limit none none (some 0) (some 0)).authors = none
    ∧ (buildCustomEventsFilter limit kinds authors (some s) (some s)).since = some s
    ∧ (buildCustomEventsFilter limit kinds authors (some s) (some s)).untilTs = some s := by
  have hz : jsFalsyNum (some s) = false := by simp [jsFalsyNum, hs]
  refine ⟨?_, ?_, rfl, rfl, ?_, ?_⟩
  · rw [fetchEvents_snd, (effectiveFilter_other_fields _).2.2.1]
    simp [buildCustomEventsFilter, jsFalsyNum]
  · rw [fetchEvents_snd, (effectiveFilter_other_fields _).2.2.2]
    simp [buildCustomEventsFilter, jsFalsyNum]
  · simp [buildCustomEventsFilter, hz]
  · simp [buildCustomEventsFilter, hz]

/-- Witness for C8 at concrete inputs (non-zero bound `1`). -/
theorem c8_custom_events_zero_bounds_dropped_witness :
    ((fetchEvents (fun _ _ => []) []
        (buildCustomEventsFilter 10 none none (some 0) (some 0))).2).since = none
    ∧ ((fetchEvents (fun _ _ => []) []
        (buildCustomEventsFilter 10 none none (some 0) (some 0))).2).untilTs = none
    ∧ (buildCustomEventsFilter 10 none none (some 0) (some 0)).kinds = none
    ∧ (buildCustomEventsFilter 10 none none (some 0) (some 0)).authors = none
    ∧ (buildCustomEventsFilter 10 none none (some 1) (some 1)).since = some 1
    ∧ (buildCustomEventsFilter 10 none none (some 1) (some 1)).untilTs = some 1 :=
  c8_custom_events_zero_bounds_dropped (fun _ _ => []) [] 10 none none 1 (by decide)

/-- C9: `fetchEvents` mutates the caller's filter object in place — when
the supplied `limit` is absent or falsy, the field is overwritten with 10
on that same object before the query, so the caller's filter is not left
unchanged, while every other filter field is untouched. -/
theorem c9_fetchEvents_mutates_caller_filter
    (querySync : List String → Filter → List NostrEvent)
    (relays : List String) (filter : Filter)
    (h : jsFalsyNum filter.limit = true) :
    ((fetchEvents querySync relays filter).2).limit = some DEFAULT_LIMIT
    ∧ (fetchEvents querySync relays filter).2 ≠ filter
    ∧ ((fetchEvents querySync relays filter).2).kinds = filter.kinds
    ∧ ((fetchEvents querySync relays filter).2).authors = filter.authors
    ∧ ((fetchEvents querySync relays filter).2).since = filter.since
    ∧ ((fetchEvents querySync relays filter).2).untilTs = filter.untilTs := by
  have h2 : (fetchEvents querySync relays filter).2 =
      { filter with limit := some DEFAULT_LIMIT } := by
    rw [fetchEvents_snd]
    unfold effectiveFilter
    rw [h]
    simp
  refine ⟨by rw [h2], ?_, by rw [h2], by rw [h2], by rw [h2], by rw [h2]⟩
  rw [h2]
  intro he
  have hl : some DEFAULT_LIMIT = filter.limit := congrArg Filter.limit he
  rw [← hl] at h
  simp [jsFalsyNum, DEFAULT_LIMIT] at h

/-- Witness for C9 at a filter with an absent limit. -/
theorem c9_fetchEvents_mutates_caller_filter_witness :
    ((fetchEvents (fun _ _ => []) []
        (Filter.mk none none none none none)).2).limit = some DEFAULT_LIMIT
    ∧ (fetchEvents (fun _ _ => []) [] (Filter.mk none none none none none)).2 ≠
        Filter.mk none none none none none
    ∧ ((fetchEvents (fun _ _ => []) []
        (Filter.mk none none none none none)).2).kinds = none
    ∧ ((fetchEvents (fun _ _ => []) []
        (Filter.mk none none none none none)).2).authors = none
    ∧ ((fetchEvents (fun _ _ => []) []
        (Filter.mk none none none none none)).2).since = none
    ∧ ((fetchEvents (fun _ _ => []) []
        (Filter.mk none none none none none)).2).untilTs = none :=
  c9_fetchEvents_mutates_caller_filter (fun _ _ => []) []
    (Filter.mk none none none none none) rfl

/-- C10: both `remove-rss-feed` and the custom branch of
`fetchCustomRssFeed` decide existence by JS truthiness of the stored URL,
not key membership — a custom feed whose stored URL is the empty string is
reported not-found by both, and the removal leaves the entry in place. -/
theorem c10_empty_url_custom_feed_not_found
    (parse : String → List RssItem) (cfg : Config) (name : String)
    (limit : Nat) (h1 : name ≠ "stackerNews")
    (h2 : name.startsWith "hackerNews." = false)
    (h3 : objGet cfg.rssFeeds.custom name = some "") :
    removeRssFeed cfg name = (cfg, false, "RSS feed '" ++ name ++ "' not found.")
    ∧ objGet (removeRssFeed cfg name).1.rssFeeds.custom name = some ""
    ∧ fetchCustomRssFeed parse cfg name limit =
        Except.error ("RSS feed '" ++ name ++ "' not found in configuration") := by
  have hb1 : (name == "stackerNews") = false := by simp [h1]
  have hr : removeRssFeed cfg name =
      (cfg, false, "RSS feed '" ++ name ++ "' not found.") := by
    simp [removeRssFeed, hb1, h2, jsTruthyStr, h3]
  refine ⟨hr, ?_, ?_⟩
  · rw [hr]
    exact h3
  · simp [fetchCustomRssFeed, hb1, h2, jsTruthyStr, h3]

/-- Witness for C10 on a configuration whose custom feed `"empty"` stores
the empty-string URL. -/
theorem c10_empty_url_custom_feed_not_found_witness :
    removeRssFeed cfgWithEmptyFeed "empty" =
      (cfgWithEmptyFeed, false, "RSS feed 'empty' not found.")
    ∧ objGet (removeRssFeed cfgWithEmptyFeed "empty").1.rssFeeds.custom
        "empty" = some ""
    ∧ fetchCustomRssFeed (fun _ => []) cfgWithEmptyFeed "empty" 5 =
        Except.error "RSS feed 'empty' not found in configuration" :=
  c10_empty_url_custom_feed_not_found (fun _ => []) cfgWithEmptyFeed "empty" 5
    (by decide) (by decide) rfl

end NostrDailyNews
